import Mathlib

/-!
Verification of the Detection & Actuation Controller of the CAT-ELIMINATOR
repository (src/catdetector-v1.py): the fusion classifier, the
cooldown/rate-limit safety state machine, and the actuation sequence.

Times are natural-number seconds (the source clock returns integer seconds);
distances are rationals, an exact model of the source's small float readings.
The relay (pump actuator) is modelled by the list of commands the controller
issues, so that both completed and interrupted executions can be examined.
-/

namespace CatDetector

/-- Pump hold duration in seconds (source constant PUMP_ACTIVATION_TIME, line 19). -/
def PUMP_ACTIVATION_TIME : ℕ := 2

/-- Cooldown in seconds between activations (source constant COOLDOWN_PERIOD, line 20). -/
def COOLDOWN_PERIOD : ℕ := 5

/-- Per-minute activation cap (source constant MAX_ACTIVATIONS_PER_MINUTE, line 22). -/
def MAX_ACTIVATIONS_PER_MINUTE : ℕ := 10

/-- The controller's mutable safety state (source globals, lines 32-34). -/
structure ActivationState where
  last_activation_time : ℕ
  activations_count : ℕ
  last_activation_minute : ℕ
  deriving DecidableEq, Repr

/-- Initial state of the globals: all zero (source lines 32-34). -/
def initState : ActivationState := ⟨0, 0, 0⟩

/-- A command issued to the relay pin during activate_pump: switch on,
suspend for some seconds (the await point), or switch off. -/
inductive RelayCmd
  | on
  | off
  | wait (secs : ℕ)
  deriving DecidableEq, Repr

/-- Result of one call to activate_pump: the updated globals, whether the
pump actuated, whether the error display was invoked, and the sequence of
relay commands issued. -/
structure PumpResult where
  state : ActivationState
  actuated : Bool
  errorShown : Bool
  relay : List RelayCmd
  deriving DecidableEq, Repr

/-- Embedding of activate_pump (source lines 46-62): minute rollover,
then either the actuation branch guarded by the cooldown-and-cap condition,
the error branch for a reached cap, or silent suppression. -/
def activate_pump (now : ℕ) (s0 : ActivationState) : PumpResult :=
  let current_minute := now / 60
  let s := if current_minute ≠ s0.last_activation_minute then
      { s0 with activations_count := 0, last_activation_minute := current_minute }
    else s0
  if ((now : ℤ) - (s.last_activation_time : ℤ) > (COOLDOWN_PERIOD : ℤ)) ∧
      s.activations_count < MAX_ACTIVATIONS_PER_MINUTE then
    { state := { s with last_activation_time := now,
                        activations_count := s.activations_count + 1 },
      actuated := true, errorShown := false,
      relay := [RelayCmd.on, RelayCmd.wait PUMP_ACTIVATION_TIME, RelayCmd.off] }
  else if s.activations_count ≥ MAX_ACTIVATIONS_PER_MINUTE then
    { state := s, actuated := false, errorShown := true, relay := [] }
  else
    { state := s, actuated := false, errorShown := false, relay := [] }

/-- The minute-rollover step of activate_pump in isolation (source lines 49-53). -/
def rollover (now : ℕ) (s0 : ActivationState) : ActivationState :=
  if now / 60 ≠ s0.last_activation_minute then
    { s0 with activations_count := 0, last_activation_minute := now / 60 }
  else s0

/-- The gate-and-actuate step of activate_pump in isolation (source lines 55-62),
applied to an already-rolled-over state. -/
def gateStep (now : ℕ) (s : ActivationState) : PumpResult :=
  if ((now : ℤ) - (s.last_activation_time : ℤ) > (COOLDOWN_PERIOD : ℤ)) ∧
      s.activations_count < MAX_ACTIVATIONS_PER_MINUTE then
    { state := { s with last_activation_time := now,
                        activations_count := s.activations_count + 1 },
      actuated := true, errorShown := false,
      relay := [RelayCmd.on, RelayCmd.wait PUMP_ACTIVATION_TIME, RelayCmd.off] }
  else if s.activations_count ≥ MAX_ACTIVATIONS_PER_MINUTE then
    { state := s, actuated := false, errorShown := true, relay := [] }
  else
    { state := s, actuated := false, errorShown := false, relay := [] }

/-- State of the relay pin after executing a list of commands starting from a
given pin state; a wait leaves the pin untouched. -/
def runRelay (b : Bool) : List RelayCmd → Bool
  | [] => b
  | RelayCmd.on :: rest => runRelay true rest
  | RelayCmd.off :: rest => runRelay false rest
  | RelayCmd.wait _ :: rest => runRelay b rest

/-- Window update of detect_motion (source lines 88-90): append the fresh
reading, then drop the oldest entry when the length exceeds 5. -/
def pushWindow (w : List ℚ) (d : ℚ) : List ℚ :=
  if (w ++ [d]).length > 5 then (w ++ [d]).tail else w ++ [d]

/-- Maximum of a list the way Python max computes it (the source never
evaluates it on an empty list; 0 is an arbitrary default for that case). -/
def listMax : List ℚ → ℚ
  | [] => 0
  | x :: xs => xs.foldl max x

/-- Minimum of a list the way Python min computes it (the source never
evaluates it on an empty list; 0 is an arbitrary default for that case). -/
def listMin : List ℚ → ℚ
  | [] => 0
  | x :: xs => xs.foldl min x

/-- The movement_pattern value of source line 94: max - min of the window. -/
def spread (w : List ℚ) : ℚ := listMax w - listMin w

/-- Classification outcome of one tick of detect_motion. -/
inductive DetectionEvent
  | noEvent
  | idle (d : ℚ)
  | trigger (d : ℚ)
  deriving DecidableEq, Repr

/-- The branch structure of source lines 92-95, evaluated on the
already-updated window: no event without presence or outside the distance
band 10 < d < 100; otherwise trigger exactly when the window spread
exceeds 20, else idle. -/
def classify (pir : Bool) (distance : ℚ) (w : List ℚ) : DetectionEvent :=
  if pir then
    if 10 < distance ∧ distance < 100 then
      if spread w > 20 then DetectionEvent.trigger distance
      else DetectionEvent.idle distance
    else DetectionEvent.noEvent
  else DetectionEvent.noEvent

/-- Result of one iteration of the detect_motion loop body. -/
structure TickResult where
  window : List ℚ
  state : ActivationState
  event : DetectionEvent
  actuated : Bool
  errorShown : Bool
  logEmitted : Bool
  relay : List RelayCmd
  deriving DecidableEq, Repr

/-- Embedding of one iteration of detect_motion (source lines 85-105):
push the reading into the window unconditionally, classify, and on a
trigger run activate_pump and then write the Cat Detected log record
(source line 98 runs after activate_pump regardless of its outcome). -/
def tick (pir : Bool) (distance : ℚ) (now : ℕ) (w : List ℚ)
    (s : ActivationState) : TickResult :=
  match classify pir distance (pushWindow w distance) with
  | DetectionEvent.trigger d =>
    ⟨pushWindow w distance, (activate_pump now s).state, DetectionEvent.trigger d,
      (activate_pump now s).actuated, (activate_pump now s).errorShown, true,
      (activate_pump now s).relay⟩
  | e => ⟨pushWindow w distance, s, e, false, false, false, []⟩

/-- A sequence of Trigger events handled at the given times: the final
state together with the number of them that actuated. -/
def runTriggers : List ℕ → ActivationState → ActivationState × ℕ
  | [], s => (s, 0)
  | t :: ts, s =>
    ((runTriggers ts (activate_pump t s).state).1,
      (if (activate_pump t s).actuated then 1 else 0)
        + (runTriggers ts (activate_pump t s).state).2)

theorem activate_pump_decomp (now : ℕ) (s : ActivationState) :
    activate_pump now s = gateStep now (rollover now s) := rfl

lemma rollover_time (now : ℕ) (s : ActivationState) :
    (rollover now s).last_activation_time = s.last_activation_time := by
  unfold rollover
  split_ifs <;> rfl

lemma rollover_minute (now : ℕ) (s : ActivationState) :
    (rollover now s).last_activation_minute = now / 60 := by
  unfold rollover
  split_ifs with h
  · rfl
  · rw [not_ne_iff] at h
    exact h.symm

lemma rollover_same (now : ℕ) (s : ActivationState)
    (h : now / 60 = s.last_activation_minute) : rollover now s = s := by
  unfold rollover
  simp [h]

/-- C1: a Trigger handled at time now actuates exactly when, after minute
rollover, now minus last_activation_time exceeds the cooldown and the count
is below the cap; on actuation last_activation_time becomes now (the time
captured at entry, before the pump-on hold) and the count grows by one. -/
theorem C1_trigger_actuation (now : ℕ) (s : ActivationState) :
    ((activate_pump now s).actuated = true ↔
      ((now : ℤ) - ((rollover now s).last_activation_time : ℤ) > (COOLDOWN_PERIOD : ℤ) ∧
        (rollover now s).activations_count < MAX_ACTIVATIONS_PER_MINUTE)) ∧
    ((activate_pump now s).actuated = true →
      (activate_pump now s).state.last_activation_time = now ∧
      (activate_pump now s).state.activations_count
        = (rollover now s).activations_count + 1) := by
  rw [activate_pump_decomp]
  unfold gateStep
  split_ifs with h1 h2 <;> simp_all

theorem C1_witness :
    (activate_pump 100 initState).state.last_activation_time = 100 ∧
    (activate_pump 100 initState).state.activations_count
      = (rollover 100 initState).activations_count + 1 :=
  (C1_trigger_actuation 100 initState).2 (by decide)

/-- C3: on every call at time now, a changed minute bucket floor(now / 60)
resets activations_count to 0 and records the new bucket, an unchanged
bucket leaves the state as is; the gate step always runs on the
rolled-over state; rollover never touches last_activation_time — so, as
the closing concrete instance shows, a Trigger one second after a
rollover is still suppressed by cooldown despite the fresh count. -/
theorem C3_minute_rollover (now : ℕ) (s : ActivationState) :
    (now / 60 ≠ s.last_activation_minute →
      rollover now s =
        { s with activations_count := 0, last_activation_minute := now / 60 }) ∧
    (now / 60 = s.last_activation_minute → rollover now s = s) ∧
    activate_pump now s = gateStep now (rollover now s) ∧
    (rollover now s).last_activation_time = s.last_activation_time ∧
    ((activate_pump 61 ⟨59, 10, 0⟩).state = ⟨59, 0, 1⟩ ∧
      (activate_pump 61 ⟨59, 10, 0⟩).actuated = false ∧
      (activate_pump 61 ⟨59, 10, 0⟩).errorShown = false) := by
  refine ⟨fun h => ?_, fun h => rollover_same now s h,
    activate_pump_decomp now s, rollover_time now s, by decide⟩
  unfold rollover
  simp [h]

theorem C3_witness :
    rollover 61 ⟨59, 10, 0⟩ =
      { (⟨59, 10, 0⟩ : ActivationState) with
          activations_count := 0, last_activation_minute := 61 / 60 } :=
  (C3_minute_rollover 61 ⟨59, 10, 0⟩).1 (by decide)

/-- C5: the error display fires exactly on the gate failures whose
post-rollover count has reached the cap, and a gate failure due to
cooldown alone, count still under the cap, is absorbed silently. -/
theorem C5_suppression_asymmetry (now : ℕ) (s : ActivationState) :
    ((activate_pump now s).errorShown = true ↔
      (activate_pump now s).actuated = false ∧
        (rollover now s).activations_count ≥ MAX_ACTIVATIONS_PER_MINUTE) ∧
    (¬((now : ℤ) - ((rollover now s).last_activation_time : ℤ) >
          (COOLDOWN_PERIOD : ℤ)) ∧
        (rollover now s).activations_count < MAX_ACTIVATIONS_PER_MINUTE →
      (activate_pump now s).actuated = false ∧
      (activate_pump now s).errorShown = false) := by
  rw [activate_pump_decomp]
  unfold gateStep
  split_ifs with h1 h2 <;> simp_all

theorem C5_witness :
    (activate_pump 12 ⟨10, 4, 0⟩).actuated = false ∧
    (activate_pump 12 ⟨10, 4, 0⟩).errorShown = false :=
  (C5_suppression_asymmetry 12 ⟨10, 4, 0⟩).2 (by decide)

/-- C10: the never-activated sentinel of last_activation_time is the
number 0, so a first-ever Trigger at a clock value of at most the cooldown
period fails the gate silently, as if an activation had just occurred. -/
theorem C10_zero_sentinel (now : ℕ) :
    initState.last_activation_time = 0 ∧
    (now ≤ COOLDOWN_PERIOD →
      (activate_pump now initState).actuated = false ∧
      (activate_pump now initState).errorShown = false) := by
  refine ⟨rfl, fun h => ?_⟩
  have h60 : now / 60 = 0 := by
    unfold COOLDOWN_PERIOD at h
    omega
  rw [activate_pump_decomp]
  have hr : rollover now initState = initState := rollover_same now initState h60
  rw [hr]
  unfold gateStep initState COOLDOWN_PERIOD MAX_ACTIVATIONS_PER_MINUTE
  unfold COOLDOWN_PERIOD at h
  split_ifs with h1 h2 <;> simp_all
  omega

lemma activate_pump_count_le (now : ℕ) (s : ActivationState)
    (h : s.activations_count ≤ MAX_ACTIVATIONS_PER_MINUTE) :
    (activate_pump now s).state.activations_count ≤ MAX_ACTIVATIONS_PER_MINUTE := by
  rw [activate_pump_decomp]
  unfold gateStep rollover
  split_ifs <;> simp_all <;> omega

lemma same_minute_step (t : ℕ) (s : ActivationState)
    (h : t / 60 = s.last_activation_minute) :
    (activate_pump t s).state.last_activation_minute = s.last_activation_minute ∧
    (activate_pump t s).state.activations_count
      = s.activations_count + (if (activate_pump t s).actuated = true then 1 else 0) ∧
    ((activate_pump t s).actuated = true →
      s.activations_count < MAX_ACTIVATIONS_PER_MINUTE) := by
  rw [activate_pump_decomp, rollover_same t s h]
  unfold gateStep
  split_ifs with h1 h2 <;> simp_all

lemma runTriggers_same_minute (times : List ℕ) (s : ActivationState)
    (h : ∀ t ∈ times, t / 60 = s.last_activation_minute) :
    (runTriggers times s).1.last_activation_minute = s.last_activation_minute ∧
    (runTriggers times s).1.activations_count
      = s.activations_count + (runTriggers times s).2 := by
  induction times generalizing s with
  | nil => simp [runTriggers]
  | cons t ts ih =>
    have ht := same_minute_step t s (h t (by simp))
    have hts : ∀ u ∈ ts, u / 60 = (activate_pump t s).state.last_activation_minute := by
      intro u hu
      rw [ht.1]
      exact h u (by simp [hu])
    have hrec := ih (activate_pump t s).state hts
    simp only [runTriggers]
    refine ⟨by rw [hrec.1, ht.1], ?_⟩
    rw [hrec.2, ht.2.1]
    cases hb : (activate_pump t s).actuated
    · simp [hb]
    · simp [hb]
      omega

lemma runTriggers_count_le (times : List ℕ) (s : ActivationState)
    (h : s.activations_count ≤ MAX_ACTIVATIONS_PER_MINUTE) :
    (runTriggers times s).1.activations_count ≤ MAX_ACTIVATIONS_PER_MINUTE := by
  induction times generalizing s with
  | nil => simpa [runTriggers]
  | cons t ts ih =>
    simp only [runTriggers]
    exact ih (activate_pump t s).state (activate_pump_count_le t s h)

/-- C2: activations_count never exceeds the cap: it starts at 0, every
activate_pump call preserves the bound, a capped state in an unchanged
minute bucket suppresses the Trigger with the rate-limit error and no
state change (whatever the cooldown says), and across any same-bucket run
of Trigger events the number that actuate plus the starting count stays
within the cap. -/
theorem C2_activation_cap (now : ℕ) (s : ActivationState) (times : List ℕ) :
    initState.activations_count ≤ MAX_ACTIVATIONS_PER_MINUTE ∧
    (s.activations_count ≤ MAX_ACTIVATIONS_PER_MINUTE →
      (activate_pump now s).state.activations_count ≤ MAX_ACTIVATIONS_PER_MINUTE) ∧
    (s.activations_count ≥ MAX_ACTIVATIONS_PER_MINUTE →
      now / 60 = s.last_activation_minute →
      (activate_pump now s).actuated = false ∧
      (activate_pump now s).errorShown = true ∧
      (activate_pump now s).state = s) ∧
    ((∀ t ∈ times, t / 60 = s.last_activation_minute) →
      s.activations_count ≤ MAX_ACTIVATIONS_PER_MINUTE →
      (runTriggers times s).2 + s.activations_count
        ≤ MAX_ACTIVATIONS_PER_MINUTE) := by
  refine ⟨by decide, activate_pump_count_le now s, fun hc hm => ?_, fun hb hc => ?_⟩
  · rw [activate_pump_decomp, rollover_same now s hm]
    unfold gateStep
    have hgate : ¬(((now : ℤ) - (s.last_activation_time : ℤ) > (COOLDOWN_PERIOD : ℤ)) ∧
        s.activations_count < MAX_ACTIVATIONS_PER_MINUTE) := fun hg => by omega
    rw [if_neg hgate, if_pos hc]
    exact ⟨rfl, rfl, rfl⟩
  · have h1 := runTriggers_same_minute times s hb
    have h2 := runTriggers_count_le times s hc
    omega

theorem C2_witness :
    (activate_pump 45 ⟨0, 10, 0⟩).actuated = false ∧
    (activate_pump 45 ⟨0, 10, 0⟩).errorShown = true ∧
    (runTriggers [6, 12, 18] initState).2 + initState.activations_count
      ≤ MAX_ACTIVATIONS_PER_MINUTE := by
  refine ⟨((C2_activation_cap 45 ⟨0, 10, 0⟩ []).2.2.1 (by decide) (by decide)).1,
    ((C2_activation_cap 45 ⟨0, 10, 0⟩ []).2.2.1 (by decide) (by decide)).2.1,
    (C2_activation_cap 0 initState [6, 12, 18]).2.2.2 (by decide) (by decide)⟩

/-- C4 (amended): on an uninterrupted call the relay command sequence is
either empty or exactly on, hold for PUMP_ACTIVATION_TIME, off, so the
pump starts from off and is off again when the call returns; the
interruption half of the original claim is refuted separately, since the
source switches the pump off with no protection against a cancelled hold. -/
theorem C4_relay_off_uninterrupted (now : ℕ) (s : ActivationState) :
    runRelay false (activate_pump now s).relay = false ∧
    ((activate_pump now s).relay = [] ∨
      (activate_pump now s).relay
        = [RelayCmd.on, RelayCmd.wait PUMP_ACTIVATION_TIME, RelayCmd.off]) := by
  rw [activate_pump_decomp]
  unfold gateStep
  split_ifs <;> simp [runRelay]

/-- C4 counterexample: an actuation interrupted at its suspension point
(after switching on, during the hold) leaves the relay energized, so the
pump is not guaranteed off on every path. -/
theorem C4_interruption_leaves_pump_on :
    (activate_pump 100 initState).actuated = true ∧
    List.take 2 (activate_pump 100 initState).relay
      = [RelayCmd.on, RelayCmd.wait PUMP_ACTIVATION_TIME] ∧
    runRelay false (List.take 2 (activate_pump 100 initState).relay) = true := by
  decide

theorem C10_witness :
    (activate_pump 3 initState).actuated = false ∧
    (activate_pump 3 initState).errorShown = false :=
  (C10_zero_sentinel 3).2 (by decide)

lemma classify_trigger_distance (pir : Bool) (d e : ℚ) (w : List ℚ)
    (h : classify pir d w = DetectionEvent.trigger e) : e = d := by
  unfold classify at h
  split_ifs at h
  simp_all

/-- C6 (amended): the Cat Detected log record is emitted exactly when the
tick classifies as Trigger, whether or not the pump actuates: a Trigger
suppressed by cooldown or by the rate limit still writes the record,
because the source logs after activate_pump unconditionally. -/
theorem C6_log_on_every_trigger (pir : Bool) (d : ℚ) (now : ℕ) (w : List ℚ)
    (s : ActivationState) :
    (tick pir d now w s).logEmitted = true ↔
      (tick pir d now w s).event = DetectionEvent.trigger d := by
  cases hc : classify pir d (pushWindow w d) with
  | noEvent => simp [tick, hc]
  | idle e => simp [tick, hc]
  | trigger e =>
    have he := classify_trigger_distance pir d e (pushWindow w d) hc
    simp [tick, hc, he]

/-- C6 counterexample: at time 3 with a fresh state and window
[50, 52, 51, 53], a reading of 75 classifies as Trigger; the activation
is suppressed by the cooldown (3 - 0 is not above 5), yet the Cat
Detected log record is still emitted, contradicting the claim that
suppressed Triggers emit no record. -/
theorem C6_suppressed_trigger_still_logs :
    (tick true 75 3 [50, 52, 51, 53] initState).event
      = DetectionEvent.trigger 75 ∧
    (tick true 75 3 [50, 52, 51, 53] initState).actuated = false ∧
    (tick true 75 3 [50, 52, 51, 53] initState).logEmitted = true := by
  norm_num [tick, pushWindow, classify, spread, listMax, listMin, max_def, min_def,
    activate_pump, initState, COOLDOWN_PERIOD, MAX_ACTIVATIONS_PER_MINUTE]

/-- C7 (amended): with presence true the classification is non-None
exactly when the distance lies in the open band (10, 100): the source
comparison 10 < distance < 100 is strict on both sides, so distance
exactly 10 yields None. -/
theorem C7_open_distance_band (d : ℚ) (w : List ℚ) :
    classify true d w ≠ DetectionEvent.noEvent ↔ 10 < d ∧ d < 100 := by
  unfold classify
  split_ifs <;> simp_all

/-- C7 counterexample: distance exactly 10 lies in [10, 100) yet
classifies as None even with presence true, refuting the claimed
inclusion of the band's lower endpoint. -/
theorem C7_distance_ten_is_none :
    (10 ≤ (10 : ℚ) ∧ (10 : ℚ) < 100) ∧
    classify true 10 [10] = DetectionEvent.noEvent := by
  refine ⟨by norm_num, ?_⟩
  norm_num [classify]

/-- C8 (amended): every reading, valid or not, is pushed into the
SampleWindow (whose length stays within capacity 5); an out-of-band
reading - which includes any physically impossible value - cannot
produce a Trigger, an actuation or a log record on its tick and leaves
the activation state untouched, and the tick is a total function, so the
loop always advances. -/
theorem C8_faulty_reading_handling (pir : Bool) (d : ℚ) (now : ℕ) (w : List ℚ)
    (s : ActivationState) :
    (tick pir d now w s).window = pushWindow w d ∧
    (w.length ≤ 5 → (pushWindow w d).length ≤ 5) ∧
    (¬(10 < d ∧ d < 100) →
      (∀ e, (tick pir d now w s).event ≠ DetectionEvent.trigger e) ∧
      (tick pir d now w s).actuated = false ∧
      (tick pir d now w s).logEmitted = false ∧
      (tick pir d now w s).state = s) := by
  refine ⟨?_, fun hl => ?_, fun hband => ?_⟩
  · cases hc : classify pir d (pushWindow w d) <;> simp [tick, hc]
  · unfold pushWindow
    split_ifs <;> simp_all
  · have hc : classify pir d (pushWindow w d) = DetectionEvent.noEvent := by
      unfold classify
      split_ifs <;> simp_all
    simp [tick, hc]

theorem C8_witness :
    (pushWindow [] 500).length ≤ 5 ∧
    (∀ e, (tick true 500 0 [] initState).event ≠ DetectionEvent.trigger e) ∧
    (tick true 500 0 [] initState).actuated = false ∧
    (tick true 500 0 [] initState).logEmitted = false ∧
    (tick true 500 0 [] initState).state = initState :=
  ⟨(C8_faulty_reading_handling true 500 0 [] initState).2.1 (by decide),
    (C8_faulty_reading_handling true 500 0 [] initState).2.2 (by decide)⟩

/-- C8 counterexample: a reading of 500 cm - beyond the 400 cm physical
maximum of the ranger, hence an invalid reading - is pushed into the
SampleWindow all the same, refuting the claim that invalid readings are
kept out of the window. -/
theorem C8_invalid_reading_is_pushed :
    (tick true 500 0 [] initState).window = [500] ∧
    (tick true 500 0 [] initState).event = DetectionEvent.noEvent := by
  norm_num [tick, pushWindow, classify]

/-- C9: with presence true and the distance in band, the classification
is Trigger exactly when the spread max - min of the current window
contents exceeds 20, else Idle; window [50, 52, 51, 53, 75] has spread 25
and triggers, [50, 51, 52, 53, 54] has spread 4 and idles, and a
single-sample window has spread 0 and can never trigger. -/
theorem C9_spread_classification (d x : ℚ) (w : List ℚ) :
    (10 < d ∧ d < 100 →
      classify true d w =
        if spread w > 20 then DetectionEvent.trigger d
        else DetectionEvent.idle d) ∧
    classify true 75 [50, 52, 51, 53, 75] = DetectionEvent.trigger 75 ∧
    classify true 54 [50, 51, 52, 53, 54] = DetectionEvent.idle 54 ∧
    spread [50, 52, 51, 53, 75] = 25 ∧
    spread [50, 51, 52, 53, 54] = 4 ∧
    spread [x] = 0 ∧
    (∀ e, classify true d [x] ≠ DetectionEvent.trigger e) := by
  have hx : spread [x] = 0 := by
    unfold spread listMax listMin
    simp
  refine ⟨fun hb => by simp [classify, hb],
    by norm_num [classify, spread, listMax, listMin, max_def, min_def],
    by norm_num [classify, spread, listMax, listMin, max_def, min_def],
    by norm_num [spread, listMax, listMin, max_def, min_def],
    by norm_num [spread, listMax, listMin, max_def, min_def],
    hx, fun e => ?_⟩
  unfold classify
  split_ifs with hp hb hs
  · rw [hx] at hs
    norm_num at hs
  · simp
  · simp
  · simp

theorem C9_witness :
    classify true 75 [50, 52, 51, 53, 75] =
      (if spread [50, 52, 51, 53, 75] > 20 then DetectionEvent.trigger 75
       else DetectionEvent.idle 75) :=
  (C9_spread_classification 75 0 [50, 52, 51, 53, 75]).1 (by decide)

theorem C6_witness :
    (tick true 75 3 [50, 52, 51, 53] initState).logEmitted = true ↔
      (tick true 75 3 [50, 52, 51, 53] initState).event
        = DetectionEvent.trigger 75 :=
  C6_log_on_every_trigger true 75 3 [50, 52, 51, 53] initState

theorem C7_witness :
    classify true 50 [] ≠ DetectionEvent.noEvent :=
  (C7_open_distance_band 50 []).mpr (by decide)

end CatDetector
